import Mathlib

/-!
  Verification development for the django-simple-idempotency package.

  The Lean definitions below are a shallow embedding of the five source
  files of the package (decorators.py, locks.py, settings.py, storages.py,
  utils.py). Pure Python functions become Lean functions; the shared
  Django cache and the lock table become explicit state threaded through
  the decorator model; a view that may raise becomes a function into
  Except. Machine integers are Nat with explicit reduction modulo 2 ^ 32
  where the SHA-256 rounds overflow.

  External collaborators (hashlib, the Django cache, threading, the
  JsonResponse constructor) are modelled by executable Lean definitions
  that follow their documented behaviour: hashlib.sha256 is implemented
  in full below; the Django cache is a key / value / expiry association
  list honouring the timeout argument; threading.RLock() allocates a
  fresh lock object on every call.
-/

namespace SimpleIdempotency

/-! ## Bytes and UTF-8 encoding

  Python str.encode() produces the UTF-8 bytes of a string; bytes values
  are modelled as List Nat with every element below 256. -/

/-- UTF-8 bytes of a string, as Python str.encode() returns them. -/
def strBytes (s : String) : List Nat :=
  s.toUTF8.toList.map (fun b => b.toNat)

/-! ## SHA-256 (model of hashlib.sha256)

  A direct implementation of FIPS 180-4 over byte lists, used by both
  utils.get_cache_key and the request-body hashing in decorators.py.
  All word arithmetic is Nat taken modulo 2 ^ 32. -/

/-- Reduce a Nat to a 32-bit word. -/
def w32 (n : Nat) : Nat := n % 4294967296

/-- Right rotation of a 32-bit word by b bits. -/
def rot32 (b n : Nat) : Nat := w32 ((n >>> b) ||| (n <<< (32 - b)))

/-- Bitwise complement within 32 bits. -/
def compl32 (n : Nat) : Nat := n ^^^ 4294967295

/-- The SHA-256 choice function of three words. -/
def chf (u v t : Nat) : Nat := (u &&& v) ^^^ (compl32 u &&& t)

/-- The SHA-256 majority function of three words. -/
def majf (u v t : Nat) : Nat := (u &&& v) ^^^ (u &&& t) ^^^ (v &&& t)

/-- Upper-case sigma zero of the compression function. -/
def sigA0 (u : Nat) : Nat := rot32 2 u ^^^ rot32 13 u ^^^ rot32 22 u

/-- Upper-case sigma one of the compression function. -/
def sigA1 (u : Nat) : Nat := rot32 6 u ^^^ rot32 11 u ^^^ rot32 25 u

/-- Lower-case sigma zero of the message schedule. -/
def sigB0 (u : Nat) : Nat := rot32 7 u ^^^ rot32 18 u ^^^ (u >>> 3)

/-- Lower-case sigma one of the message schedule. -/
def sigB1 (u : Nat) : Nat := rot32 17 u ^^^ rot32 19 u ^^^ (u >>> 10)

/-- The 64 round constants of SHA-256, written in decimal. -/
def sha256K : Array Nat := #[
  1116352408, 1899447441, 3049323471, 3921009573,
  961987163, 1508970993, 2453635748, 2870763221,
  3624381080, 310598401, 607225278, 1426881987,
  1925078388, 2162078206, 2614888103, 3248222580,
  3835390401, 4022224774, 264347078, 604807628,
  770255983, 1249150122, 1555081692, 1996064986,
  2554220882, 2821834349, 2952996808, 3210313671,
  3336571891, 3584528711, 113926993, 338241895,
  666307205, 773529912, 1294757372, 1396182291,
  1695183700, 1986661051, 2177026350, 2456956037,
  2730485921, 2820302411, 3259730800, 3345764771,
  3516065817, 3600352804, 4094571909, 275423344,
  430227734, 506948616, 659060556, 883997877,
  958139571, 1322822218, 1537002063, 1747873779,
  1955562222, 2024104815, 2227730452, 2361852424,
  2428436474, 2756734187, 3204031479, 3329325298]

/-- The eight working variables of the hash state. -/
structure Sha256St where
  a : Nat
  b : Nat
  c : Nat
  d : Nat
  e : Nat
  f : Nat
  g : Nat
  h : Nat
deriving DecidableEq, Repr

/-- Initial hash value of SHA-256, written in decimal. -/
def sha256init : Sha256St :=
  { a := 1779033703, b := 3144134277, c := 1013904242, d := 2773480762,
    e := 1359893119, f := 2600822924, g := 528734635, h := 1541459225 }

/-- Big-endian 64-bit length encoding, eight bytes. -/
def be64 (n : Nat) : List Nat :=
  [56, 48, 40, 32, 24, 16, 8, 0].map (fun s => (n >>> s) % 256)

/-- SHA-256 padding: append 0x80, zeros to 56 mod 64, then the bit length. -/
def sha256pad (msg : List Nat) : List Nat :=
  let z := (119 - msg.length % 64) % 64
  msg ++ [0x80] ++ List.replicate z 0 ++ be64 (8 * msg.length)

/-- Split a byte list into 64-byte blocks; fuel bounds the recursion. -/
def chunksAux : Nat → List Nat → List (List Nat)
  | 0, _ => []
  | _, [] => []
  | n + 1, l => l.take 64 :: chunksAux n (l.drop 64)

/-- Split a byte list into its 64-byte blocks. -/
def chunks64 (l : List Nat) : List (List Nat) := chunksAux l.length l

/-- Big-endian 32-bit word from four bytes at offset 4 * i of a block. -/
def word32be (block : List Nat) (i : Nat) : Nat :=
  block.getD (4 * i) 0 * 16777216 + block.getD (4 * i + 1) 0 * 65536 +
    block.getD (4 * i + 2) 0 * 256 + block.getD (4 * i + 3) 0

/-- The 64-entry message schedule of one block. -/
def sha256sched (block : List Nat) : Array Nat :=
  let w0 := ((List.range 16).map (word32be block)).toArray
  (List.range 48).foldl (fun w j =>
    let i := j + 16
    w.push (w32 (w.getD (i - 16) 0 + sigB0 (w.getD (i - 15) 0) +
      w.getD (i - 7) 0 + sigB1 (w.getD (i - 2) 0)))) w0

/-- One compression round. -/
def sha256round (st : Sha256St) (kw : Nat) : Sha256St :=
  let t1 := w32 (st.h + sigA1 st.e + chf st.e st.f st.g + kw)
  let t2 := w32 (sigA0 st.a + majf st.a st.b st.c)
  { a := w32 (t1 + t2), b := st.a, c := st.b, d := st.c,
    e := w32 (st.d + t1), f := st.e, g := st.f, h := st.g }

/-- Process one 64-byte block. -/
def sha256block (st : Sha256St) (block : List Nat) : Sha256St :=
  let w := sha256sched block
  let r := (List.range 64).foldl
    (fun s i => sha256round s (w32 (sha256K.getD i 0 + w.getD i 0))) st
  { a := w32 (st.a + r.a), b := w32 (st.b + r.b), c := w32 (st.c + r.c),
    d := w32 (st.d + r.d), e := w32 (st.e + r.e), f := w32 (st.f + r.f),
    g := w32 (st.g + r.g), h := w32 (st.h + r.h) }

/-- The SHA-256 hash state of a byte message. -/
def sha256 (msg : List Nat) : Sha256St :=
  (chunks64 (sha256pad msg)).foldl sha256block sha256init

/-- Lowercase hex digit of a value below 16. -/
def hexDigit (n : Nat) : Char :=
  if n < 10 then Char.ofNat (48 + n) else Char.ofNat (87 + n)

/-- Eight lowercase hex characters of a 32-bit word, most significant first. -/
def hex8 (n : Nat) : List Char :=
  (List.range 8).map (fun i => hexDigit ((n >>> (28 - 4 * i)) &&& 15))

/-- Model of hashlib.sha256(msg).hexdigest(): the 64-character lowercase
hex digest of a byte message. -/
def sha256hex (msg : List Nat) : String :=
  let s := sha256 msg
  String.mk (hex8 s.a ++ hex8 s.b ++ hex8 s.c ++ hex8 s.d ++
    hex8 s.e ++ hex8 s.f ++ hex8 s.g ++ hex8 s.h)

/-! ## Requests, responses and handlers (external interfaces, spec section 6)

  The request accessor exposes method, route path, raw body bytes, the
  META header mapping and an optional caller identity. The user_id field
  models str(request.user.id) when the user object carries an id
  attribute; none models the attribute being absent, in which case
  getattr(request.user, "id", "") yields the empty string. -/

/-- The request fields the package reads. -/
structure HttpRequest where
  method : String
  path_info : String
  body : List Nat
  meta : List (String × String)
  user_id : Option String
deriving DecidableEq, Repr

/-- A response: status code, headers and body bytes. The model carries
rendered content, so response.render() is the identity on it. -/
structure HttpResponse where
  status_code : Nat
  headers : List (String × String)
  body : List Nat
deriving DecidableEq, Repr

/-- A positional argument of a Python call: the request object or a bare
string (which is what unpacking a kwargs dict with a single star
produces, its keys). -/
inductive PosArg where
  | req (r : HttpRequest)
  | str (s : String)
deriving DecidableEq, Repr

/-- The shape of one Python call: positional arguments and keyword
arguments. -/
structure Call where
  pos : List PosArg
  kw : List (String × String)
deriving DecidableEq, Repr

/-- A wrapped view: given a call it returns a response or raises (the
Except.error case models a Python exception propagating). -/
abbrev Handler : Type := Call → Except String HttpResponse

/-- Lookup in a META-style mapping, as dict.get returns it. -/
def metaGet (m : List (String × String)) (k : String) : Option String :=
  (m.find? (fun e => e.1 == k)).map (fun e => e.2)

/-! ## Default settings (settings.py DEFAULTS)

  Claims are settled against the default configuration; durations are in
  seconds as total_seconds() converts them. -/

/-- Name of the idempotency key header (settings.py line 14). -/
def HEADER : String := "HTTP_IDEMPOTENCY_KEY"

/-- Safe methods skipped by the decorator (settings.py line 17). -/
def SAFE_METHODS : List String := ["GET", "HEAD", "OPTIONS", "TRACE"]

/-- Status code of the bad response (settings.py line 38). -/
def BAD_RESPONSE_STATUS_CODE : Nat := 400

/-- Storage timeout: ten minutes in seconds (settings.py line 24). -/
def STORAGE_CACHE_TIMEOUT : Nat := 600

/-- Redis lock lease: five minutes in seconds (settings.py line 32). -/
def LOCK_TTL : Nat := 300

/-! ## utils.py -/

/-- Model of utils.bad_response: a JsonResponse carrying the error
message with the configured status code. -/
def bad_response (message : String) : HttpResponse :=
  { status_code := BAD_RESPONSE_STATUS_CODE
    headers := [("Content-Type", "application/json")]
    body := strBytes ("\x7b\x22error\x22: \x22" ++ message ++ "\x22\x7d") }

/-- String that getattr(request.user, "id", "") stringifies to: the
stored identity when present, the empty string otherwise. -/
def userIdStr (r : HttpRequest) : String := r.user_id.getD ""

/-- Model of utils.get_cache_key: SHA-256 over the concatenated UTF-8
encodings of the idempotency key, the route path, the method and the
caller identity string, in exactly the update order of the source. -/
def get_cache_key (request : HttpRequest) (idempotency_key : String) : String :=
  sha256hex (strBytes idempotency_key ++ strBytes request.path_info ++
    strBytes request.method ++ strBytes (userIdStr request))

/-- The missing-key message of decorators.py lines 24 and 25. -/
def MISSING_KEY_MESSAGE : String :=
  "Idempotency key is missing. Generate a unique key and specify it in the header"

/-- The key-reuse conflict message of decorators.py lines 70 and 71. -/
def CONFLICT_MESSAGE : String :=
  "You\x27ve already used this idempotency key. Please, repeat the request with another idempotency key."

/-- Model of utils.is_success: 2xx status codes. -/
def is_success (code : Nat) : Bool :=
  decide (200 ≤ code) && decide (code ≤ 299)

/-! ## storages.py

  The stored value is the pair (request body hash, response). The
  Django cache behind CacheKeyStorage is modelled as an association
  list of key, value and absolute expiry time; a lookup whose entry has
  expired is a miss, which is the documented timeout behaviour the
  source relies on by passing timeout to cache.set. The pickle
  round-trip through pickle.dumps and pickle.loads restores the value
  verbatim, so it is modelled as the identity. -/

/-- The pair stored under a cache key. -/
abbrev StoredVal : Type := String × HttpResponse

/-- The shared Django cache: entries of key, value and expiry time. -/
abbrev DjangoCache : Type := List (String × StoredVal × Nat)

/-- Django cache read at an instant: the first entry for the key, a
miss once its expiry has passed. -/
def django_cache_get (now : Nat) (c : DjangoCache) (key : String) :
    Option StoredVal :=
  match c.find? (fun e => e.1 == key) with
  | some e => if now < e.2.2 then some e.2.1 else none
  | none => none

/-- Django cache write with a timeout in seconds. -/
def django_cache_set (now : Nat) (c : DjangoCache) (key : String)
    (v : StoredVal) (timeout : Nat) : DjangoCache :=
  (key, v, now + timeout) :: c

/-- Model of CacheKeyStorage.get: read the shared cache, unpickle. -/
def CacheKeyStorage.get (now : Nat) (c : DjangoCache) (key : String) :
    Option StoredVal :=
  django_cache_get now c key

/-- Model of CacheKeyStorage.set: pickle the value and store it with
the configured STORAGE_CACHE_TIMEOUT. -/
def CacheKeyStorage.set (now : Nat) (c : DjangoCache) (key : String)
    (v : StoredVal) : DjangoCache :=
  django_cache_set now c key v STORAGE_CACHE_TIMEOUT

/-- The plain dict inside MemoryKeyStorage. -/
abbrev MemDict : Type := List (String × StoredVal)

/-- Model of MemoryKeyStorage.get: a plain dict lookup. -/
def MemoryKeyStorage.get (d : MemDict) (key : String) : Option StoredVal :=
  (d.find? (fun e => e.1 == key)).map (fun e => e.2)

/-- Model of MemoryKeyStorage.set: a plain dict assignment; the source
passes no timeout and records no clock. -/
def MemoryKeyStorage.set (d : MemDict) (key : String) (v : StoredVal) :
    MemDict :=
  (key, v) :: d

/-- MemoryKeyStorage lookup placed on the same timeline as the cache
storage: the dict does not consult the clock, so the instant is
ignored. -/
def MemoryKeyStorage.get_at (now : Nat) (d : MemDict) (key : String) :
    Option StoredVal :=
  MemoryKeyStorage.get d key

/-! ## locks.py

  ThreadLock.lock ignores its arguments and returns threading.RLock(),
  a brand-new reentrant lock object. Object creation is modelled by a
  fresh-identifier allocator: the call takes the allocator counter and
  returns the identity of the new lock object together with the bumped
  counter. -/

/-- Model of ThreadLock.lock: allocate a fresh RLock object. The name
argument is accepted and discarded, exactly as in the source. -/
def ThreadLock.lock (name : String) (alloc : Nat) : Nat × Nat :=
  (alloc, alloc + 1)

/-! ## decorators.py — the wrapped view

  The model covers the bare-view call shape (view_set is None), with the
  URL kwargs carried explicitly because line 18 of the source treats
  them differently from line 43. The shared state is the Django cache
  plus the lock table: nextLock is the RLock allocator counter and held
  the identifiers currently acquired. The with-statement acquires on
  entry and releases on every exit, including the exception path. -/

/-- Shared mutable state threaded through a request. -/
structure SysState where
  cache : DjangoCache
  nextLock : Nat
  held : List Nat
deriving DecidableEq

/-- Everything one call of the wrapped view produces: the returned
response or propagated exception, the state after the call, and how
many times the wrapped view function was invoked. -/
structure ViewOutcome where
  result : Except String HttpResponse
  state : SysState
  handlerCalls : Nat

/-- Model of decorators.require_idempotency_key applied to view_func:
the wrapped view, with the Django cache and lock table passed
explicitly and the wall clock as a parameter. -/
def wrapped_view (view_func : Handler) (now : Nat) (st : SysState)
    (request : HttpRequest) (kwargs : List (String × String)) : ViewOutcome :=
  if SAFE_METHODS.contains request.method then
    -- Source line 18: return view_func(*args, *kwargs). The single
    -- star unpacks the kwargs dict as positional arguments, so the
    -- view receives the keys of kwargs after the request.
    { result := view_func
        { pos := PosArg.req request :: kwargs.map (fun kv => PosArg.str kv.1)
          kw := [] }
      state := st
      handlerCalls := 1 }
  else
    match metaGet request.meta HEADER with
    | none =>
      { result := Except.ok (bad_response MISSING_KEY_MESSAGE)
        state := st
        handlerCalls := 0 }
    | some idempotency_key_from_header =>
      if idempotency_key_from_header == "" then
        -- An empty header value is falsy in Python, so it takes the
        -- same branch as an absent header.
        { result := Except.ok (bad_response MISSING_KEY_MESSAGE)
          state := st
          handlerCalls := 0 }
      else
        let key := get_cache_key request idempotency_key_from_header
        let request_body_hash := sha256hex request.body
        -- mutex = LOCK_CLASS(); with mutex.lock(name=...):
        let lockPair := ThreadLock.lock ("Idempotency_" ++ key) st.nextLock
        let lid := lockPair.1
        let heldIn := lid :: st.held
        match CacheKeyStorage.get now st.cache key with
        | none =>
          match view_func { pos := [PosArg.req request], kw := kwargs } with
          | Except.error e =>
            -- The exception propagates; the with-statement still
            -- releases the lock; nothing is stored.
            { result := Except.error e
              state := { cache := st.cache, nextLock := lockPair.2,
                         held := heldIn.erase lid }
              handlerCalls := 1 }
          | Except.ok response =>
            let cache2 :=
              if is_success response.status_code then
                CacheKeyStorage.set now st.cache key
                  (request_body_hash, response)
              else
                st.cache
            { result := Except.ok response
              state := { cache := cache2, nextLock := lockPair.2,
                         held := heldIn.erase lid }
              handlerCalls := 1 }
        | some value_from_cache =>
          if request_body_hash == value_from_cache.1 then
            { result := Except.ok value_from_cache.2
              state := { cache := st.cache, nextLock := lockPair.2,
                         held := heldIn.erase lid }
              handlerCalls := 0 }
          else
            { result := Except.ok (bad_response CONFLICT_MESSAGE)
              state := { cache := st.cache, nextLock := lockPair.2,
                         held := heldIn.erase lid }
              handlerCalls := 0 }

/-! ## Storage lemmas -/

/-- A value written through CacheKeyStorage is read back unchanged at
any instant before its expiry. -/
theorem cacheget_set_same (now now2 : Nat) (c : DjangoCache) (k : String)
    (v : StoredVal) (h : now2 < now + STORAGE_CACHE_TIMEOUT) :
    CacheKeyStorage.get now2 (CacheKeyStorage.set now c k v) k = some v := by
  unfold CacheKeyStorage.get CacheKeyStorage.set django_cache_get django_cache_set
  rw [List.find?_cons_of_pos _ (by simp)]
  simp [h]

/-- A value written through CacheKeyStorage is a miss at any instant
from its expiry onwards. -/
theorem cacheget_set_expired (now now2 : Nat) (c : DjangoCache) (k : String)
    (v : StoredVal) (h : now + STORAGE_CACHE_TIMEOUT ≤ now2) :
    CacheKeyStorage.get now2 (CacheKeyStorage.set now c k v) k = none := by
  unfold CacheKeyStorage.get CacheKeyStorage.set django_cache_get django_cache_set
  rw [List.find?_cons_of_pos _ (by simp)]
  simp only []
  rw [if_neg (by omega)]

/-- A key that misses in the shared cache keeps missing as time moves
forward: entries only expire, they never reappear. -/
theorem cacheget_none_mono (now now2 : Nat) (c : DjangoCache) (k : String)
    (h12 : now ≤ now2) (h : CacheKeyStorage.get now c k = none) :
    CacheKeyStorage.get now2 c k = none := by
  unfold CacheKeyStorage.get django_cache_get at h ⊢
  cases hf : c.find? (fun e => e.1 == k) with
  | none => simp
  | some e =>
    rw [hf] at h
    dsimp only at h ⊢
    by_cases hlt : now < e.2.2
    · rw [if_pos hlt] at h
      exact absurd h (by simp)
    · rw [if_neg (by omega)]

/-- A write through MemoryKeyStorage is read back at every later
instant: the dict consults no clock and applies no timeout. -/
theorem memget_set_same (now : Nat) (d : MemDict) (k : String) (v : StoredVal) :
    MemoryKeyStorage.get_at now (MemoryKeyStorage.set d k v) k = some v := by
  unfold MemoryKeyStorage.get_at MemoryKeyStorage.get MemoryKeyStorage.set
  rw [List.find?_cons_of_pos _ (by simp)]
  rfl

/-! ## Decorator path lemmas

  One lemma per terminal branch of the protocol of decorators.py,
  proved once and instantiated by the claim theorems below. -/

/-- Fresh-key path: with a non-safe method, a usable header and a cache
miss, the wrapped view invokes the handler once; a raised exception
propagates with nothing stored, a returned response is stored exactly
when its status is 2xx; the lock is released either way. -/
theorem wrapped_view_miss (view_func : Handler) (now : Nat) (st : SysState)
    (request : HttpRequest) (kwargs : List (String × String)) (k : String)
    (hsafe : SAFE_METHODS.contains request.method = false)
    (hmeta : metaGet request.meta HEADER = some k)
    (hk : (k == "") = false)
    (hfresh : CacheKeyStorage.get now st.cache (get_cache_key request k) = none) :
    wrapped_view view_func now st request kwargs =
      match view_func { pos := [PosArg.req request], kw := kwargs } with
      | Except.error e =>
        { result := Except.error e
          state := { cache := st.cache, nextLock := st.nextLock + 1,
                     held := st.held }
          handlerCalls := 1 }
      | Except.ok response =>
        { result := Except.ok response
          state := { cache :=
                       if is_success response.status_code then
                         CacheKeyStorage.set now st.cache
                           (get_cache_key request k)
                           (sha256hex request.body, response)
                       else st.cache
                     nextLock := st.nextLock + 1
                     held := st.held }
          handlerCalls := 1 } := by
  unfold wrapped_view
  rw [hsafe]
  simp only [Bool.false_eq_true, if_false, hmeta, hk, ThreadLock.lock, hfresh]
  cases hv : view_func { pos := [PosArg.req request], kw := kwargs } with
  | error e => simp [List.erase_cons_head]
  | ok response => simp [List.erase_cons_head]

/-- Replay path: with a non-safe method, a usable header and a cached
record whose stored hash equals the hash of the current body, the
wrapped view returns the stored response without invoking the handler
and leaves the cache untouched. -/
theorem wrapped_view_hit_eq (view_func : Handler) (now : Nat) (st : SysState)
    (request : HttpRequest) (kwargs : List (String × String)) (k : String)
    (r : HttpResponse)
    (hsafe : SAFE_METHODS.contains request.method = false)
    (hmeta : metaGet request.meta HEADER = some k)
    (hk : (k == "") = false)
    (hhit : CacheKeyStorage.get now st.cache (get_cache_key request k) =
      some (sha256hex request.body, r)) :
    wrapped_view view_func now st request kwargs =
      { result := Except.ok r
        state := { cache := st.cache, nextLock := st.nextLock + 1,
                   held := st.held }
        handlerCalls := 0 } := by
  unfold wrapped_view
  rw [hsafe]
  simp only [Bool.false_eq_true, if_false, hmeta, hk, ThreadLock.lock, hhit]
  simp [List.erase_cons_head]

/-- Conflict path: with a non-safe method, a usable header and a cached
record whose stored hash differs from the hash of the current body, the
wrapped view returns the conflict bad response without invoking the
handler and leaves the cache untouched. -/
theorem wrapped_view_hit_ne (view_func : Handler) (now : Nat) (st : SysState)
    (request : HttpRequest) (kwargs : List (String × String)) (k : String)
    (v : StoredVal)
    (hsafe : SAFE_METHODS.contains request.method = false)
    (hmeta : metaGet request.meta HEADER = some k)
    (hk : (k == "") = false)
    (hhit : CacheKeyStorage.get now st.cache (get_cache_key request k) = some v)
    (hne : (sha256hex request.body == v.1) = false) :
    wrapped_view view_func now st request kwargs =
      { result := Except.ok (bad_response CONFLICT_MESSAGE)
        state := { cache := st.cache, nextLock := st.nextLock + 1,
                   held := st.held }
        handlerCalls := 0 } := by
  unfold wrapped_view
  rw [hsafe]
  simp only [Bool.false_eq_true, if_false, hmeta, hk, ThreadLock.lock, hhit, hne]
  simp [List.erase_cons_head]

/-! ## Digest length lemmas

  The hex digest always has 64 characters, which lets witnesses compare
  it with short strings without evaluating the hash. -/

/-- Eight hex characters per word. -/
theorem hex8_length (n : Nat) : (hex8 n).length = 8 := by
  simp [hex8]

/-- The hex digest of any message has 64 characters. -/
theorem sha256hex_length (msg : List Nat) : (sha256hex msg).length = 64 := by
  simp [sha256hex, String.length, hex8_length]

/-- The digest never equals a string of a different length. -/
theorem sha256hex_ne_of_length (msg : List Nat) (s : String)
    (h : ¬ s.length = 64) : (sha256hex msg == s) = false := by
  rw [beq_eq_false_iff_ne]
  intro he
  exact h (he ▸ sha256hex_length msg)

/-! ## Concrete fixtures used by the witnesses -/

/-- The response of a successful creation. -/
def resp201 : HttpResponse :=
  { status_code := 201, headers := [], body := [52, 50] }

/-- A handler that always succeeds with resp201. -/
def okHandler : Handler := fun _ => Except.ok resp201

/-- A handler that always raises. -/
def errHandler : Handler := fun _ => Except.error "boom"

/-- Initial shared state: empty cache, no locks. -/
def st0 : SysState := { cache := [], nextLock := 0, held := [] }

/-- A POST request carrying the idempotency key header. -/
def postRequest : HttpRequest :=
  { method := "POST", path_info := "/orders",
    body := strBytes "\x7b\x22item\x22: \x22x\x22\x7d",
    meta := [(HEADER, "abc123")], user_id := some "u1" }

/-! ## Claim theorems -/

/-- C1: a non-safe request with idempotency key K sent twice with
identical bodies, the first handler outcome a 2xx success, returns on
the second call the stored response unchanged, identical in status,
headers and body to the first, without re-invoking the handler, so the
handler runs exactly once across both calls. The second call may happen
at any instant before the stored record expires. -/
theorem C1_idempotent_replay (view_func : Handler) (now1 now2 : Nat)
    (st : SysState) (request : HttpRequest) (kwargs : List (String × String))
    (k : String) (resp : HttpResponse)
    (hsafe : SAFE_METHODS.contains request.method = false)
    (hmeta : metaGet request.meta HEADER = some k)
    (hk : (k == "") = false)
    (hfresh : CacheKeyStorage.get now1 st.cache (get_cache_key request k) = none)
    (hhandler : view_func { pos := [PosArg.req request], kw := kwargs } =
      Except.ok resp)
    (hsuccess : is_success resp.status_code = true)
    (httl : now2 < now1 + STORAGE_CACHE_TIMEOUT) :
    (wrapped_view view_func now1 st request kwargs).result = Except.ok resp ∧
    (wrapped_view view_func now1 st request kwargs).handlerCalls = 1 ∧
    (wrapped_view view_func now2
      (wrapped_view view_func now1 st request kwargs).state
      request kwargs).result = Except.ok resp ∧
    (wrapped_view view_func now2
      (wrapped_view view_func now1 st request kwargs).state
      request kwargs).handlerCalls = 0 := by
  have h1 := wrapped_view_miss view_func now1 st request kwargs k
    hsafe hmeta hk hfresh
  rw [hhandler] at h1
  simp only [hsuccess, if_true] at h1
  have hhit : CacheKeyStorage.get now2
      (CacheKeyStorage.set now1 st.cache (get_cache_key request k)
        (sha256hex request.body, resp)) (get_cache_key request k) =
      some (sha256hex request.body, resp) :=
    cacheget_set_same now1 now2 st.cache (get_cache_key request k) _ httl
  have h2 := wrapped_view_hit_eq view_func now2
    { cache := CacheKeyStorage.set now1 st.cache (get_cache_key request k)
        (sha256hex request.body, resp)
      nextLock := st.nextLock + 1, held := st.held }
    request kwargs k resp hsafe hmeta hk hhit
  rw [h1]
  refine ⟨rfl, rfl, ?_, ?_⟩
  · dsimp only
    rw [h2]
  · dsimp only
    rw [h2]

/-- Concrete instance of C1 at an empty cache with a creating handler. -/
theorem C1_idempotent_replay_witness :
    (wrapped_view okHandler 0 st0 postRequest []).result = Except.ok resp201 ∧
    (wrapped_view okHandler 0 st0 postRequest []).handlerCalls = 1 ∧
    (wrapped_view okHandler 0
      (wrapped_view okHandler 0 st0 postRequest []).state
      postRequest []).result = Except.ok resp201 ∧
    (wrapped_view okHandler 0
      (wrapped_view okHandler 0 st0 postRequest []).state
      postRequest []).handlerCalls = 0 :=
  C1_idempotent_replay okHandler 0 0 st0 postRequest [] "abc123" resp201
    (by decide) rfl rfl rfl rfl rfl (by decide)

/-- C3: a non-safe request whose key already has a stored record with a
different content hash gets the configured bad response carrying the
conflict message, the handler is not invoked, and the cache is left
unchanged. -/
theorem C3_conflict_rejected (view_func : Handler) (now : Nat) (st : SysState)
    (request : HttpRequest) (kwargs : List (String × String)) (k : String)
    (v : StoredVal)
    (hsafe : SAFE_METHODS.contains request.method = false)
    (hmeta : metaGet request.meta HEADER = some k)
    (hk : (k == "") = false)
    (hhit : CacheKeyStorage.get now st.cache (get_cache_key request k) = some v)
    (hne : (sha256hex request.body == v.1) = false) :
    (wrapped_view view_func now st request kwargs).result =
      Except.ok (bad_response CONFLICT_MESSAGE) ∧
    (bad_response CONFLICT_MESSAGE).status_code = BAD_RESPONSE_STATUS_CODE ∧
    (wrapped_view view_func now st request kwargs).handlerCalls = 0 ∧
    (wrapped_view view_func now st request kwargs).state.cache = st.cache := by
  have h := wrapped_view_hit_ne view_func now st request kwargs k v
    hsafe hmeta hk hhit hne
  rw [h]
  exact ⟨rfl, rfl, rfl, rfl⟩

/-- Concrete instance of C3: the cached record carries a different
hash, the call is rejected and the record survives. -/
theorem C3_conflict_rejected_witness :
    (wrapped_view okHandler 0
      { cache := [(get_cache_key postRequest "abc123",
                   ("deadbeef", resp201), 600)],
        nextLock := 0, held := [] } postRequest []).result =
      Except.ok (bad_response CONFLICT_MESSAGE) ∧
    (bad_response CONFLICT_MESSAGE).status_code = BAD_RESPONSE_STATUS_CODE ∧
    (wrapped_view okHandler 0
      { cache := [(get_cache_key postRequest "abc123",
                   ("deadbeef", resp201), 600)],
        nextLock := 0, held := [] } postRequest []).handlerCalls = 0 ∧
    (wrapped_view okHandler 0
      { cache := [(get_cache_key postRequest "abc123",
                   ("deadbeef", resp201), 600)],
        nextLock := 0, held := [] } postRequest []).state.cache =
      [(get_cache_key postRequest "abc123", ("deadbeef", resp201), 600)] :=
  C3_conflict_rejected okHandler 0
    { cache := [(get_cache_key postRequest "abc123", ("deadbeef", resp201), 600)]
      nextLock := 0, held := [] }
    postRequest [] "abc123" ("deadbeef", resp201)
    (by decide) rfl rfl
    (by
      unfold CacheKeyStorage.get django_cache_get
      rw [List.find?_cons_of_pos _ (by simp)]
      rfl)
    (sha256hex_ne_of_length postRequest.body "deadbeef" (by decide))

/-- C4: a non-safe request without the idempotency key header gets the
bad response with the missing-key message at the configured status
code, and the handler is never invoked. -/
theorem C4_missing_key_rejected (view_func : Handler) (now : Nat)
    (st : SysState) (request : HttpRequest) (kwargs : List (String × String))
    (hsafe : SAFE_METHODS.contains request.method = false)
    (hmeta : metaGet request.meta HEADER = none) :
    (wrapped_view view_func now st request kwargs).result =
      Except.ok (bad_response MISSING_KEY_MESSAGE) ∧
    (bad_response MISSING_KEY_MESSAGE).status_code = BAD_RESPONSE_STATUS_CODE ∧
    (wrapped_view view_func now st request kwargs).handlerCalls = 0 := by
  unfold wrapped_view
  rw [hsafe]
  simp [hmeta, bad_response]

/-- Concrete instance of C4: a POST without the header is rejected. -/
theorem C4_missing_key_rejected_witness :
    (wrapped_view okHandler 0 st0
      { method := "POST", path_info := "/orders", body := [],
        meta := [], user_id := none } []).result =
      Except.ok (bad_response MISSING_KEY_MESSAGE) ∧
    (bad_response MISSING_KEY_MESSAGE).status_code = BAD_RESPONSE_STATUS_CODE ∧
    (wrapped_view okHandler 0 st0
      { method := "POST", path_info := "/orders", body := [],
        meta := [], user_id := none } []).handlerCalls = 0 :=
  C4_missing_key_rejected okHandler 0 st0
    { method := "POST", path_info := "/orders", body := [],
      meta := [], user_id := none } [] (by decide) rfl

/-- C10: a non-safe request whose idempotency key header is present but
empty is treated exactly like a missing header, because the empty
string is falsy: the missing-key bad response is returned and the
handler is never invoked. -/
theorem C10_empty_header_rejected (view_func : Handler) (now : Nat)
    (st : SysState) (request : HttpRequest) (kwargs : List (String × String))
    (hsafe : SAFE_METHODS.contains request.method = false)
    (hmeta : metaGet request.meta HEADER = some "") :
    (wrapped_view view_func now st request kwargs).result =
      Except.ok (bad_response MISSING_KEY_MESSAGE) ∧
    (bad_response MISSING_KEY_MESSAGE).status_code = BAD_RESPONSE_STATUS_CODE ∧
    (wrapped_view view_func now st request kwargs).handlerCalls = 0 := by
  unfold wrapped_view
  rw [hsafe]
  simp [hmeta, bad_response]

/-- Concrete instance of C10: an empty header value is rejected. -/
theorem C10_empty_header_rejected_witness :
    (wrapped_view okHandler 0 st0
      { method := "POST", path_info := "/orders", body := [],
        meta := [(HEADER, "")], user_id := none } []).result =
      Except.ok (bad_response MISSING_KEY_MESSAGE) ∧
    (bad_response MISSING_KEY_MESSAGE).status_code = BAD_RESPONSE_STATUS_CODE ∧
    (wrapped_view okHandler 0 st0
      { method := "POST", path_info := "/orders", body := [],
        meta := [(HEADER, "")], user_id := none } []).handlerCalls = 0 :=
  C10_empty_header_rejected okHandler 0 st0
    { method := "POST", path_info := "/orders", body := [],
      meta := [(HEADER, "")], user_id := none } [] (by decide) rfl

/-- C5: on the fresh-key path a handler that raises or returns a
non-2xx status leaves no record: the outcome is propagated unchanged,
the cache is untouched, the lock is released, and a later call with the
same key and body invokes the handler again. -/
theorem C5_failure_not_cached (view_func : Handler) (now1 now2 : Nat)
    (st : SysState) (request : HttpRequest) (kwargs : List (String × String))
    (k : String)
    (hsafe : SAFE_METHODS.contains request.method = false)
    (hmeta : metaGet request.meta HEADER = some k)
    (hk : (k == "") = false)
    (h12 : now1 ≤ now2)
    (hfresh : CacheKeyStorage.get now1 st.cache (get_cache_key request k) = none)
    (hfail : match view_func { pos := [PosArg.req request], kw := kwargs } with
             | Except.ok resp => is_success resp.status_code = false
             | Except.error _ => True) :
    (wrapped_view view_func now1 st request kwargs).result =
      view_func { pos := [PosArg.req request], kw := kwargs } ∧
    (wrapped_view view_func now1 st request kwargs).state.cache = st.cache ∧
    (wrapped_view view_func now1 st request kwargs).state.held = st.held ∧
    (wrapped_view view_func now1 st request kwargs).handlerCalls = 1 ∧
    (wrapped_view view_func now2
      (wrapped_view view_func now1 st request kwargs).state
      request kwargs).handlerCalls = 1 := by
  have h1 := wrapped_view_miss view_func now1 st request kwargs k
    hsafe hmeta hk hfresh
  have hfresh2 : CacheKeyStorage.get now2 st.cache (get_cache_key request k) =
      none :=
    cacheget_none_mono now1 now2 st.cache _ h12 hfresh
  cases hv : view_func { pos := [PosArg.req request], kw := kwargs } with
  | error e =>
    rw [hv] at h1
    dsimp only at h1
    rw [h1]
    refine ⟨rfl, rfl, rfl, rfl, ?_⟩
    dsimp only
    have h2 := wrapped_view_miss view_func now2
      { cache := st.cache, nextLock := st.nextLock + 1, held := st.held }
      request kwargs k hsafe hmeta hk hfresh2
    rw [h2, hv]
  | ok resp =>
    rw [hv] at hfail
    dsimp only at hfail
    rw [hv] at h1
    simp only [hfail, Bool.false_eq_true, if_false] at h1
    rw [h1]
    refine ⟨rfl, rfl, rfl, rfl, ?_⟩
    dsimp only
    have h2 := wrapped_view_miss view_func now2
      { cache := st.cache, nextLock := st.nextLock + 1, held := st.held }
      request kwargs k hsafe hmeta hk hfresh2
    rw [h2, hv]

/-- Concrete instance of C5 with a raising handler: the exception comes
back, nothing is cached, the lock table is unchanged, and a retry
reaches the handler again. -/
theorem C5_failure_not_cached_witness :
    (wrapped_view errHandler 0 st0 postRequest []).result =
      errHandler { pos := [PosArg.req postRequest], kw := [] } ∧
    (wrapped_view errHandler 0 st0 postRequest []).state.cache = st0.cache ∧
    (wrapped_view errHandler 0 st0 postRequest []).state.held = st0.held ∧
    (wrapped_view errHandler 0 st0 postRequest []).handlerCalls = 1 ∧
    (wrapped_view errHandler 0
      (wrapped_view errHandler 0 st0 postRequest []).state
      postRequest []).handlerCalls = 1 :=
  C5_failure_not_cached errHandler 0 0 st0 postRequest [] "abc123"
    (by decide) rfl rfl (Nat.le_refl 0) rfl True.intro

/-- C8: the cache key is a deterministic digest of the idempotency key,
the route path, the method and the caller identity, concatenated in a
fixed order and UTF-8 encoding; requests agreeing on those inputs get
identical keys, and a request without an authenticated identity
contributes the empty string, colliding with an explicit empty
identity. -/
theorem C8_cache_key_deterministic (r1 r2 : HttpRequest) (k : String)
    (hpath : r1.path_info = r2.path_info)
    (hmethod : r1.method = r2.method)
    (huser : r1.user_id = r2.user_id) :
    get_cache_key r1 k = get_cache_key r2 k ∧
    get_cache_key r1 k = sha256hex (strBytes k ++ strBytes r1.path_info ++
      strBytes r1.method ++ strBytes (userIdStr r1)) ∧
    (r1.user_id = none → userIdStr r1 = "") ∧
    get_cache_key { r1 with user_id := none } k =
      get_cache_key { r1 with user_id := some "" } k := by
  refine ⟨?_, rfl, ?_, rfl⟩
  · unfold get_cache_key userIdStr
    rw [hpath, hmethod, huser]
  · intro h
    unfold userIdStr
    rw [h]
    rfl

/-- Concrete instance of C8 at the demo request. -/
theorem C8_cache_key_deterministic_witness :
    get_cache_key postRequest "abc123" = get_cache_key postRequest "abc123" ∧
    get_cache_key postRequest "abc123" =
      sha256hex (strBytes "abc123" ++ strBytes postRequest.path_info ++
        strBytes postRequest.method ++ strBytes (userIdStr postRequest)) ∧
    (postRequest.user_id = none → userIdStr postRequest = "") ∧
    get_cache_key { postRequest with user_id := none } "abc123" =
      get_cache_key { postRequest with user_id := some "" } "abc123" :=
  C8_cache_key_deterministic postRequest postRequest "abc123" rfl rfl rfl

/-! ## Interleaving model of concurrent requests

  Two requests with the same derived cache key and body hash run the
  critical section of decorators.py lines 36 to 61 concurrently. Each
  thread executes the same atomic steps the source performs: create the
  mutex object via ThreadLock.lock (which allocates a fresh RLock),
  acquire it (blocking while another thread holds that same object),
  read the shared cache, then act on the snapshot it read: on a miss
  invoke the handler and store a successful response, on a hit compare
  hashes; releasing the lock as it finishes. The handler is modelled as
  a function of the invocation counter so that distinct invocations can
  be told apart, as two creations of a resource would be. -/

/-- Phase of one request thread inside the critical section. -/
inductive TPhase where
  | begin0
  | acquiring (lid : Nat)
  | looking (lid : Nat)
  | acting (lid : Nat) (v : Option StoredVal)
  | finished (r : HttpResponse)
deriving DecidableEq

/-- Shared state plus the two thread phases. -/
structure ConcState where
  cache : DjangoCache
  lockAlloc : Nat
  held : List Nat
  handlerCalls : Nat
  t0 : TPhase
  t1 : TPhase
deriving DecidableEq

/-- One atomic step of a thread at phase t, returning the new shared
state and the new phase of that thread. -/
def threadStep (now : Nat) (key bodyHash : String)
    (hfn : Nat → HttpResponse) (s : ConcState) (t : TPhase) :
    ConcState × TPhase :=
  match t with
  | TPhase.begin0 =>
    -- mutex = ThreadLock(); rlock = mutex.lock(name=...): a fresh
    -- RLock object is created, no matter the name.
    let p := ThreadLock.lock ("Idempotency_" ++ key) s.lockAlloc
    ({ s with lockAlloc := p.2 }, TPhase.acquiring p.1)
  | TPhase.acquiring lid =>
    -- Entering the with-statement blocks while the same lock object is
    -- held elsewhere.
    if s.held.contains lid then (s, TPhase.acquiring lid)
    else ({ s with held := lid :: s.held }, TPhase.looking lid)
  | TPhase.looking lid =>
    (s, TPhase.acting lid (CacheKeyStorage.get now s.cache key))
  | TPhase.acting lid v =>
    match v with
    | none =>
      let resp := hfn s.handlerCalls
      let cache2 :=
        if is_success resp.status_code then
          CacheKeyStorage.set now s.cache key (bodyHash, resp)
        else s.cache
      ({ s with cache := cache2, handlerCalls := s.handlerCalls + 1,
                held := s.held.erase lid }, TPhase.finished resp)
    | some v0 =>
      if bodyHash == v0.1 then
        ({ s with held := s.held.erase lid }, TPhase.finished v0.2)
      else
        ({ s with held := s.held.erase lid },
         TPhase.finished (bad_response CONFLICT_MESSAGE))
  | TPhase.finished r => (s, TPhase.finished r)

/-- Run one scheduled step: false steps thread 0, true steps thread 1. -/
def schedStep (now : Nat) (key bodyHash : String) (hfn : Nat → HttpResponse)
    (s : ConcState) (i : Bool) : ConcState :=
  if i then
    let p := threadStep now key bodyHash hfn s s.t1
    { p.1 with t1 := p.2 }
  else
    let p := threadStep now key bodyHash hfn s s.t0
    { p.1 with t0 := p.2 }

/-- Run a whole schedule. -/
def runSched (now : Nat) (key bodyHash : String) (hfn : Nat → HttpResponse)
    (s : ConcState) (sched : List Bool) : ConcState :=
  sched.foldl (schedStep now key bodyHash hfn) s

/-- Both threads start outside the critical section over an empty
shared cache. -/
def conc0 : ConcState :=
  { cache := [], lockAlloc := 0, held := [], handlerCalls := 0,
    t0 := TPhase.begin0, t1 := TPhase.begin0 }

/-- Under the default ThreadLock, the interleaving in which both
threads read the cache before either writes makes both invoke the
handler: the two freshly allocated RLock objects are distinct, so the
second acquisition does not block on the first. The final state counts
two handler invocations and each thread returns its own invocation
result. -/
theorem singleflight_race (now : Nat) (key bodyHash : String)
    (hfn : Nat → HttpResponse)
    (h0 : is_success (hfn 0).status_code = true)
    (h1 : is_success (hfn 1).status_code = true) :
    (runSched now key bodyHash hfn conc0
      [false, true, false, true, false, true, false, true]).handlerCalls = 2 ∧
    (runSched now key bodyHash hfn conc0
      [false, true, false, true, false, true, false, true]).t0 =
      TPhase.finished (hfn 0) ∧
    (runSched now key bodyHash hfn conc0
      [false, true, false, true, false, true, false, true]).t1 =
      TPhase.finished (hfn 1) := by
  simp [runSched, schedStep, threadStep, ThreadLock.lock, conc0,
        CacheKeyStorage.get, django_cache_get, CacheKeyStorage.set,
        django_cache_set, h0, h1, List.erase]

/-- The response of the n-th handler invocation: each call creates a
fresh resource, so the bodies differ. -/
def orderView (n : Nat) : HttpResponse :=
  { status_code := 201, headers := [], body := [52, 48 + n] }

/-- C2: the claimed single-flight guarantee fails on the code. Two
concurrent requests sharing the fresh key derived from the demo POST
run the critical section of decorators.py under the default
ThreadLock; in the interleaving where both look up before either
writes, the handler is invoked twice and the two calls finish with
different responses, because each request acquired its own fresh RLock
and the lock therefore serialized nothing. -/
theorem C2_singleflight_race :
    (runSched 0 (get_cache_key postRequest "abc123")
      (sha256hex postRequest.body) orderView conc0
      [false, true, false, true, false, true, false, true]).handlerCalls = 2 ∧
    (runSched 0 (get_cache_key postRequest "abc123")
      (sha256hex postRequest.body) orderView conc0
      [false, true, false, true, false, true, false, true]).t0 ≠
    (runSched 0 (get_cache_key postRequest "abc123")
      (sha256hex postRequest.body) orderView conc0
      [false, true, false, true, false, true, false, true]).t1 := by
  have h := singleflight_race 0 (get_cache_key postRequest "abc123")
    (sha256hex postRequest.body) orderView (by decide) (by decide)
  refine ⟨h.1, ?_⟩
  rw [h.2.1, h.2.2]
  decide

/-! ## C6: the safe-method branch and the kwargs unpacking slip -/

/-- A view that reports how it was called: status 200 when the URL
kwargs arrive as keyword arguments, 500 otherwise. -/
def probe_view : Handler := fun c =>
  if c.kw == [("pk", "1")] then
    Except.ok { status_code := 200, headers := [], body := [] }
  else
    Except.ok { status_code := 500, headers := [], body := [] }

/-- A safe-method request for a detail route whose URL kwargs carry the
primary key. -/
def getRequest : HttpRequest :=
  { method := "GET", path_info := "/orders/1", body := [],
    meta := [], user_id := none }

/-- C6: on the safe-method passthrough the handler is not invoked with
the original arguments. Line 18 of decorators.py unpacks kwargs with a
single star, so the view receives the keys of kwargs as extra
positional arguments; with kwargs pk = 1 the probe view answers 500
instead of the 200 it returns when called as line 43 calls it. -/
theorem C6_safe_branch_kwargs_bug :
    (wrapped_view probe_view 0 st0 getRequest [("pk", "1")]).result =
      probe_view { pos := [PosArg.req getRequest, PosArg.str "pk"], kw := [] } ∧
    probe_view { pos := [PosArg.req getRequest, PosArg.str "pk"], kw := [] } =
      Except.ok { status_code := 500, headers := [], body := [] } ∧
    probe_view { pos := [PosArg.req getRequest], kw := [("pk", "1")] } =
      Except.ok { status_code := 200, headers := [], body := [] } ∧
    (wrapped_view probe_view 0 st0 getRequest [("pk", "1")]).result ≠
      probe_view { pos := [PosArg.req getRequest], kw := [("pk", "1")] } := by
  refine ⟨rfl, rfl, rfl, ?_⟩
  intro h
  have h2 : (Except.ok { status_code := 500, headers := [], body := [] } :
      Except String HttpResponse) =
      Except.ok { status_code := 200, headers := [], body := [] } := h
  simp at h2

/-! ## C7: ThreadLock is not keyed by the lock name -/

/-- C7: two acquisitions with the same lock name do not share a mutex:
ThreadLock.lock discards the name and returns a freshly created RLock
object each time, so the two lock objects are distinct and overlapping
critical sections for one name never exclude each other. -/
theorem C7_threadlock_not_keyed :
    (ThreadLock.lock "Idempotency_k" 0).1 ≠
      (ThreadLock.lock "Idempotency_k"
        (ThreadLock.lock "Idempotency_k" 0).2).1 := by
  decide

/-! ## C9: TTL expiry of the two storage strategies -/

/-- C9 counterexample: the in-process MemoryKeyStorage keeps a record
past the configured TTL. A record written at instant 0 is still
returned one second after STORAGE_CACHE_TIMEOUT has elapsed, not
treated as a miss: its set method passes no timeout and its get method
consults no clock. -/
theorem C9_memory_never_expires :
    MemoryKeyStorage.get_at (0 + STORAGE_CACHE_TIMEOUT + 1)
      (MemoryKeyStorage.set [] "k" ("h", resp201)) "k" ≠ none := by
  unfold MemoryKeyStorage.get_at MemoryKeyStorage.get MemoryKeyStorage.set
  decide

/-- C9 amended: the shared external cache strategy honours the TTL, a
write being read back before expiry and missing from expiry onwards,
while the in-process mapping applies no TTL at all: its records are
returned at every later instant. -/
theorem C9_ttl_amended (now now2 : Nat) (c : DjangoCache) (d : MemDict)
    (k : String) (v : StoredVal) :
    (now2 < now + STORAGE_CACHE_TIMEOUT →
      CacheKeyStorage.get now2 (CacheKeyStorage.set now c k v) k = some v) ∧
    (now + STORAGE_CACHE_TIMEOUT ≤ now2 →
      CacheKeyStorage.get now2 (CacheKeyStorage.set now c k v) k = none) ∧
    MemoryKeyStorage.get_at now2 (MemoryKeyStorage.set d k v) k = some v :=
  ⟨fun h => cacheget_set_same now now2 c k v h,
   fun h => cacheget_set_expired now now2 c k v h,
   memget_set_same now2 d k v⟩

/-- Concrete instance of C9 as amended: a record written at instant 0
is a hit at 599, a miss at 600 in the cache storage, and still a hit at
601 in the memory storage. -/
theorem C9_ttl_amended_witness :
    CacheKeyStorage.get 599 (CacheKeyStorage.set 0 [] "k" ("h", resp201)) "k" =
      some ("h", resp201) ∧
    CacheKeyStorage.get 600 (CacheKeyStorage.set 0 [] "k" ("h", resp201)) "k" =
      none ∧
    MemoryKeyStorage.get_at 601 (MemoryKeyStorage.set [] "k" ("h", resp201)) "k" =
      some ("h", resp201) :=
  ⟨(C9_ttl_amended 0 599 [] [] "k" ("h", resp201)).1 (by decide),
   (C9_ttl_amended 0 600 [] [] "k" ("h", resp201)).2.1 (by decide),
   (C9_ttl_amended 0 601 [] [] "k" ("h", resp201)).2.2⟩

end SimpleIdempotency
